import Mathlib

/-!
# remotecommand: executor dispatch, conditional logger and the v3 stream protocol

A shallow embedding of `tools/remotecommand/remotecommand.go` and
`tools/remotecommand/v3.go`.

* Go `nil` is `none`; an `error` result is `Option Error` (`none` is `nil`).
* A Go panic is an explicit outcome (`Outcome.panicked`, or `none` for a
  logging call), because several properties are about abnormal exits.
* Package variables (`log`, `CLog`) are the record `Globals`, passed explicitly.
* The calls made on a connection are collected in order as a list.
* Goroutines are tasks of a session state `Sess`; a schedule (list of task
  identifiers) decides who moves next, and `step` is the identity for a task
  that is blocked or has ended.
-/

namespace remotecommand

/-! ## Constants of the imported Kubernetes packages -/

/-- Value of `remotecommand.StreamProtocolV1Name` (k8s.io/apimachinery). -/
def StreamProtocolV1Name : String := "channel.k8s.io"

/-- Value of `remotecommand.StreamProtocolV2Name` (k8s.io/apimachinery). -/
def StreamProtocolV2Name : String := "v2.channel.k8s.io"

/-- Value of `remotecommand.StreamProtocolV3Name` (k8s.io/apimachinery). -/
def StreamProtocolV3Name : String := "v3.channel.k8s.io"

/-- Value of `remotecommand.StreamProtocolV4Name` (k8s.io/apimachinery). -/
def StreamProtocolV4Name : String := "v4.channel.k8s.io"

/-- Value of `v1.StreamType` (k8s.io/api/core/v1): the header that carries the role. -/
def StreamType : String := "streamType"

/-- Value of `v1.StreamTypeResize` (k8s.io/api/core/v1). -/
def StreamTypeResize : String := "resize"

/-! ## Basic data -/

/-- Go `error` values, identified by their message. -/
abbrev Error := String

/-- An `http.Header`: keys with their value, in insertion order. -/
abbrev Header := List (String × String)

/-- The method `http.Header.Set`: replaces the value stored under `key`. Go
stores and looks up keys in canonical form on both sides; here they are kept
as written on both sides. -/
def Header.Set (h : Header) (key value : String) : Header :=
  h.filter (fun kv => kv.1 != key) ++ [(key, value)]

/-- The method `http.Header.Get`: the value stored under `key`, if any. -/
def Header.Get (h : Header) (key : String) : Option String :=
  (h.find? (fun kv => kv.1 == key)).map Prod.snd

/-- An opened sub-stream (`httpstream.Stream`), named by a handle. -/
structure Stream where
  id : Nat
deriving DecidableEq, Repr

/-- How a Go call ends: it returns an `error` (possibly nil) or it panics. -/
inductive Outcome where
  | returned (err : Option Error)
  | panicked
deriving DecidableEq, Repr

/-- Modelled from the spec: the `TerminalSize` type is declared in another file of
the package; the spec gives it two unsigned 16-bit fields, columns and rows. -/
structure TerminalSize where
  columns : Nat
  rows : Nat
deriving DecidableEq, Repr

/-- The interface `TerminalSizeQueue`, given by what its successive `Next()` calls
return (`none` is the nil sentinel). When the list is exhausted `Next()` blocks. -/
structure TerminalSizeQueue where
  pending : List (Option TerminalSize)
deriving DecidableEq, Repr

/-- The struct `StreamOptions`. Readers and writers are named by a handle. -/
structure StreamOptions where
  Stdin : Option Nat
  Stdout : Option Nat
  Stderr : Option Nat
  Tty : Bool
  TerminalSizeQueue : Option TerminalSizeQueue
deriving DecidableEq, Repr

/-- The interface `streamCreator`: `respond earlier headers` is what
`CreateStream(headers)` returns after the calls `earlier` were made on it. -/
structure streamCreator where
  respond : List Header → Header → Except Error Stream

/-! ## The conditional logger -/

/-- A `*logrus.Logger`, named by a handle. -/
structure Logger where
  id : Nat
deriving DecidableEq, Repr

/-- Severity of a log record. -/
inductive Level where
  | trace | debug | info | warn | error
deriving DecidableEq, Repr

/-- The struct `conditionalLogger`: the field `origLogger` and the embedded
`*logrus.Logger`. -/
structure conditionalLogger where
  origLogger : Option Logger
  Logger : Option Logger
deriving DecidableEq, Repr

/-- The package variables `log` and `CLog`, and the records handed to logrus. -/
structure Globals where
  log : Option Logger
  CLog : conditionalLogger
  sink : List (Level × String)
deriving DecidableEq, Repr

/-- The package initialiser `init()`: `log` is nil and `CLog` is the empty
conditional logger. -/
def init : Globals :=
  { log := none, CLog := { origLogger := none, Logger := none }, sink := [] }

/-- A formatting method of `*logrus.Logger` called on `recv`. The method reads the
fields of its receiver, so on a nil receiver it is a nil-pointer dereference:
the call panics (`none`). Otherwise the record reaches the logger. -/
def logrusLogf (recv : Option Logger) (lvl : Level) (format : String) (g : Globals) :
    Option Globals :=
  match recv with
  | none => none
  | some _ => some { g with sink := g.sink ++ [(lvl, format)] }

/-- The method `conditionalLogger.Tracef`. -/
def conditionalLogger.Tracef (c : conditionalLogger) (format : String) (g : Globals) :
    Option Globals :=
  if g.log != none then logrusLogf c.origLogger Level.trace format g else some g

/-- The method `conditionalLogger.Debugf`. -/
def conditionalLogger.Debugf (c : conditionalLogger) (format : String) (g : Globals) :
    Option Globals :=
  if g.log != none then logrusLogf c.origLogger Level.debug format g else some g

/-- The method `conditionalLogger.Infof`. -/
def conditionalLogger.Infof (c : conditionalLogger) (format : String) (g : Globals) :
    Option Globals :=
  if g.log != none then logrusLogf c.origLogger Level.info format g else some g

/-- The method `conditionalLogger.Warnf`. -/
def conditionalLogger.Warnf (c : conditionalLogger) (format : String) (g : Globals) :
    Option Globals :=
  if g.log != none then logrusLogf c.origLogger Level.warn format g else some g

/-- The call `CLog.Errorf`: `conditionalLogger` declares no `Errorf`, so the call
is the method promoted from the embedded `*logrus.Logger`, with no guard. -/
def conditionalLogger.Errorf (c : conditionalLogger) (format : String) (g : Globals) :
    Option Globals :=
  logrusLogf c.Logger Level.error format g

/-- The function `SetLogger`. It always returns nil; `none` would be a panic. -/
def SetLogger (logger : Option Logger) (g : Globals) : Option Globals :=
  match logger with
  | some l =>
    let g1 : Globals := { g with log := some l, CLog := { origLogger := some l, Logger := some l } }
    g1.CLog.Infof "Initialized logger for package remotecommand" g1
  | none => some g

/-- The package state in which `log` is `logger` and `CLog` wraps it twice: the
states reached from `init` by calls of `SetLogger`, with any records `sink`. -/
def globals (logger : Option Logger) (sink : List (Level × String)) : Globals :=
  { log := logger, CLog := { origLogger := logger, Logger := logger }, sink := sink }

/-! ## Protocol v3: creating the streams -/

/-- What the v2 handler's `createStreams` did: the `CreateStream` calls it issued,
in order, the error stream it stored, and the error it returned. -/
structure V2Step where
  calls : List Header
  errorStream : Option Stream
  err : Option Error

/-- The parts of a session that these two files only call: the v2 handler's
`createStreams`, the JSON encoding of a size, the fate of each write on the
resize stream, the value the error-stream watcher delivers, which copy tasks
the v2 copy methods start, and how each copy ends (nil or an error). -/
structure Env where
  v2CreateStreams : StreamOptions → streamCreator → List Header → V2Step
  encode : TerminalSize → List Nat
  writeOk : Nat → Bool
  watcherValue : Option Error
  startsStdin : StreamOptions → Bool
  startsStdout : StreamOptions → Bool
  startsStderr : StreamOptions → Bool
  stdinResult : Option Error
  stdoutResult : Option Error
  stderrResult : Option Error

/-- The struct `streamProtocolV3`: the embedded v2 handler (its options and its
error stream) and the field `resizeStream`. -/
structure streamProtocolV3 where
  options : StreamOptions
  errorStream : Option Stream
  resizeStream : Option Stream
deriving DecidableEq, Repr

/-- Result of `streamProtocolV3.createStreams`: how it ended, the handler, the
`CreateStream` calls it issued in order, and the package state. -/
structure CreateResult where
  out : Outcome
  p : streamProtocolV3
  calls : List Header
  g : Globals

/-- The header built for the resize stream: `http.Header` with the stream type
set to the resize role. -/
def resizeHeaders : Header := Header.Set [] StreamType StreamTypeResize

/-- The method `streamProtocolV3.createStreams`. `hist` holds the calls made on
`conn` before. -/
def streamProtocolV3.createStreams (env : Env) (p : streamProtocolV3) (conn : streamCreator)
    (hist : List Header) (g : Globals) : CreateResult :=
  -- set up the streams from v2
  let v2 := env.v2CreateStreams p.options conn hist
  let p1 : streamProtocolV3 := { p with errorStream := v2.errorStream }
  match v2.err with
  | some err => { out := Outcome.returned (some err), p := p1, calls := v2.calls, g := g }
  | none =>
    -- set up resize stream
    match g.CLog.Tracef "p.Tty: %s" g with
    | none => { out := Outcome.panicked, p := p1, calls := v2.calls, g := g }
    | some g1 =>
      if p1.options.Tty then
        let headers := resizeHeaders
        match g1.CLog.Debugf "Creating resizeStream" g1 with
        | none => { out := Outcome.panicked, p := p1, calls := v2.calls, g := g1 }
        | some g2 =>
          match g2.CLog.Tracef "headers: %s" g2 with
          | none => { out := Outcome.panicked, p := p1, calls := v2.calls, g := g2 }
          | some g3 =>
            match conn.respond (hist ++ v2.calls) headers with
            | Except.error err =>
              -- the assignment stores the nil stream that comes with the error
              let p2 : streamProtocolV3 := { p1 with resizeStream := none }
              match g3.CLog.Errorf "Error while creating streams: %s" g3 with
              | none =>
                { out := Outcome.panicked, p := p2, calls := v2.calls ++ [headers], g := g3 }
              | some g4 =>
                { out := Outcome.returned (some err), p := p2,
                  calls := v2.calls ++ [headers], g := g4 }
            | Except.ok s =>
              { out := Outcome.returned none, p := { p1 with resizeStream := some s },
                calls := v2.calls ++ [headers], g := g3 }
      else
        { out := Outcome.returned none, p := p1, calls := v2.calls, g := g1 }

/-! ## Protocol v3: the resize pump -/

/-- Where the goroutine started by `handleResizes` stands: at the top of its
loop, blocked inside `Next()`, returned, or ended by a panic. -/
inductive PumpStatus where
  | running | inNext | returned | panicked
deriving DecidableEq, Repr

/-- State of the goroutine started by `handleResizes`: what the coming `Next()`
calls return, the number of `Next()` calls begun, the sizes handed to
`encoder.Encode` in order, the messages written to the resize stream, and
whether the one `json.Encoder`, built before the loop, has met a write error:
it keeps that error and returns it from every later `Encode` without writing. -/
structure PumpState where
  queue : List (Option TerminalSize)
  nextCalls : Nat
  encodeCalls : List TerminalSize
  writes : List (List Nat)
  encoderErr : Bool
  status : PumpStatus
deriving DecidableEq, Repr

/-- The pump goroutine as it is started, for the queue `q`. -/
def PumpState.start (q : TerminalSizeQueue) : PumpState :=
  { queue := q.pending, nextCalls := 0, encodeCalls := [], writes := [],
    encoderErr := false, status := PumpStatus.running }

/-- The loop body of the pump from the return of `Next()` on: the nil sentinel
logs and returns; a size is handed to `encoder.Encode`, and a failure is
logged and handed to `runtime.HandleError`, after which the loop goes on.
`Encode` writes the encoding to the resize stream unless the encoder has met
a write error before; `env.writeOk k` is the fate of the write made by `Encode`
call number `k`. With nothing for `Next()` to return the goroutine stays
blocked. -/
def pumpNext (env : Env) (g : Globals) (ps : PumpState) : Globals × PumpState :=
  match ps.queue with
  | [] => (g, ps)
  | none :: rest =>
    match g.CLog.Errorf "Got empty size." g with
    | none => (g, { ps with queue := rest, status := PumpStatus.panicked })
    | some g1 => (g1, { ps with queue := rest, status := PumpStatus.returned })
  | some size :: rest =>
    let ps1 : PumpState :=
      { ps with queue := rest, encodeCalls := ps.encodeCalls ++ [size],
                encoderErr := ps.encoderErr || !env.writeOk ps.encodeCalls.length,
                status := PumpStatus.running }
    if !ps.encoderErr && env.writeOk ps.encodeCalls.length then
      (g, { ps1 with writes := ps.writes ++ [env.encode size] })
    else
      match g.CLog.Errorf "Unable to encode size." g with
      | none => (g, { ps1 with status := PumpStatus.panicked })
      | some g1 => (g1, ps1)

/-- One turn of the pump goroutine: from the top of the loop it logs, calls
`Next()` and handles what comes back; blocked in `Next()` it handles what comes
back; once ended it does nothing. -/
def pumpIter (env : Env) (g : Globals) (ps : PumpState) : Globals × PumpState :=
  match ps.status with
  | PumpStatus.running =>
    match g.CLog.Debugf "Calling Next() on terminalsizequeue." g with
    | none => (g, { ps with status := PumpStatus.panicked })
    | some g1 =>
      pumpNext env g1 { ps with status := PumpStatus.inNext, nextCalls := ps.nextCalls + 1 }
  | PumpStatus.inNext => pumpNext env g ps
  | PumpStatus.returned => (g, ps)
  | PumpStatus.panicked => (g, ps)

/-- The pump goroutine given `n` turns. -/
def pumpRun (env : Env) : Nat → Globals → PumpState → Globals × PumpState
  | 0, g, ps => (g, ps)
  | n + 1, g, ps => pumpRun env n (pumpIter env g ps).1 (pumpIter env g ps).2

/-- The method `streamProtocolV3.handleResizes`: the package state after its log
calls and the goroutine it started, if any; `none` is a panic. -/
def streamProtocolV3.handleResizes (p : streamProtocolV3) (g : Globals) :
    Option (Globals × Option PumpState) :=
  match g.CLog.Debugf "someone called handleResise()" g with
  | none => none
  | some g1 =>
    match g1.CLog.Tracef "p.resizeStream: %s" g1 with
    | none => none
    | some g2 =>
      match g2.CLog.Tracef "p.TerminalSizeQueue: %s" g2 with
      | none => none
      | some g3 =>
        match p.resizeStream, p.options.TerminalSizeQueue with
        | some _, some q => some (g3, some (PumpState.start q))
        | _, _ => some (g3, none)

/-! ## Protocol v3: the session -/

/-- Position of the goroutine that runs `streamProtocolV3.stream`, after
`createStreams`: before `watchErrorStream`, before `handleResizes`, before each
of the three copy calls, in `wg.Wait()`, in the receive on `errorChan`, ended. -/
inductive Pc where
  | watch | resizes | stdin | stdout | stderr | wait | recv | done
deriving DecidableEq, Repr

/-- A copy goroutine: not started, copying, or finished, with the error of the
copy if there was one. -/
inductive Task where
  | idle
  | running
  | finished (err : Option Error)
deriving DecidableEq, Repr

/-- The error-stream watcher: not started, reading the error stream, blocked in
the send of its value on `errorChan`, or finished. -/
inductive Watcher where
  | idle | reading | sending | finished
deriving DecidableEq, Repr

/-- The goroutines of a session. -/
inductive Tid where
  | main | watcher | stdinCopy | stdoutCopy | stderrCopy | pump
deriving DecidableEq, Repr

/-- State of a v3 session: package state, handler, `CreateStream` calls made,
the main goroutine (position and, once ended, how), the `WaitGroup` counter,
the goroutines, and whether an unrecovered panic of a goroutine has ended the
process. -/
structure Sess where
  g : Globals
  p : streamProtocolV3
  calls : List Header
  pc : Pc
  out : Option Outcome
  wg : Nat
  watcher : Watcher
  stdinCopy : Task
  stdoutCopy : Task
  stderrCopy : Task
  pump : Option PumpState
  crashed : Bool
deriving DecidableEq, Repr

/-- A session in which no goroutine has been started yet, with the main
goroutine at `pc` and the outcome `out` of `stream`, if it has ended. -/
def Sess.fresh (g : Globals) (p : streamProtocolV3) (calls : List Header) (pc : Pc)
    (out : Option Outcome) : Sess :=
  { g := g, p := p, calls := calls, pc := pc, out := out, wg := 0,
    watcher := Watcher.idle, stdinCopy := Task.idle, stdoutCopy := Task.idle,
    stderrCopy := Task.idle, pump := none, crashed := false }

/-- The start of `streamProtocolV3.stream`: the log call and `createStreams`;
an error or a panic there ends `stream`, otherwise the main goroutine stands
before `watchErrorStream`. -/
def streamProtocolV3.begin (env : Env) (p : streamProtocolV3) (conn : streamCreator)
    (hist : List Header) (g : Globals) : Sess :=
  match g.CLog.Debugf "Create Streams" g with
  | none => Sess.fresh g p [] Pc.done (some Outcome.panicked)
  | some g1 =>
    let r := p.createStreams env conn hist g1
    match r.out with
    | Outcome.panicked => Sess.fresh r.g r.p r.calls Pc.done (some Outcome.panicked)
    | Outcome.returned (some err) =>
      Sess.fresh r.g r.p r.calls Pc.done (some (Outcome.returned (some err)))
    | Outcome.returned none => Sess.fresh r.g r.p r.calls Pc.watch none

/-- Modelled from the spec: `watchErrorStream`, `copyStdin`, `copyStdout` and
`copyStderr` are declared in other files of the package. The watcher reads the error
stream and delivers exactly one value on `errorChan`; `copyStdin` starts a task
that is not tracked; `copyStdout` and `copyStderr` start tasks tracked by the
`WaitGroup`. The rest follows `streamProtocolV3.stream` line by line: one move
of the main goroutine. `wg.Wait()` passes only at counter zero and the receive
passes only when the watcher is in its send. -/
def mainStep (env : Env) (s : Sess) : Sess :=
  match s.pc with
  | Pc.watch => { s with watcher := Watcher.reading, pc := Pc.resizes }
  | Pc.resizes =>
    match s.g.CLog.Debugf "Calling handleResizes()" s.g with
    | none => { s with out := some Outcome.panicked, pc := Pc.done }
    | some g1 =>
      match s.p.handleResizes g1 with
      | none => { s with g := g1, out := some Outcome.panicked, pc := Pc.done }
      | some (g2, pump) => { s with g := g2, pump := pump, pc := Pc.stdin }
  | Pc.stdin =>
    if env.startsStdin s.p.options then { s with stdinCopy := Task.running, pc := Pc.stdout }
    else { s with pc := Pc.stdout }
  | Pc.stdout =>
    if env.startsStdout s.p.options then
      { s with wg := s.wg + 1, stdoutCopy := Task.running, pc := Pc.stderr }
    else { s with pc := Pc.stderr }
  | Pc.stderr =>
    if env.startsStderr s.p.options then
      { s with wg := s.wg + 1, stderrCopy := Task.running, pc := Pc.wait }
    else { s with pc := Pc.wait }
  | Pc.wait => if s.wg = 0 then { s with pc := Pc.recv } else s
  | Pc.recv =>
    match s.watcher with
    | Watcher.sending =>
      { s with watcher := Watcher.finished, out := some (Outcome.returned env.watcherValue),
               pc := Pc.done }
    | _ => s
  | Pc.done => s

/-- One move of goroutine `t`. A goroutine that is blocked or has ended does not
move. A panic of the pump goroutine passes through the deferred
`runtime.HandleCrash`, which raises it again: the process ends, and no
goroutine moves any more. -/
def step (env : Env) (t : Tid) (s : Sess) : Sess :=
  if s.crashed then s
  else
    match t with
    | Tid.main => mainStep env s
    | Tid.watcher =>
      match s.watcher with
      | Watcher.reading => { s with watcher := Watcher.sending }
      | _ => s
    | Tid.stdinCopy =>
      match s.stdinCopy with
      | Task.running => { s with stdinCopy := Task.finished env.stdinResult }
      | _ => s
    | Tid.stdoutCopy =>
      match s.stdoutCopy with
      | Task.running => { s with stdoutCopy := Task.finished env.stdoutResult, wg := s.wg - 1 }
      | _ => s
    | Tid.stderrCopy =>
      match s.stderrCopy with
      | Task.running => { s with stderrCopy := Task.finished env.stderrResult, wg := s.wg - 1 }
      | _ => s
    | Tid.pump =>
      match s.pump with
      | none => s
      | some ps =>
        let r := pumpIter env s.g ps
        { s with g := r.1, pump := some r.2,
                 crashed := decide (r.2.status = PumpStatus.panicked) }

/-- The moves of a schedule, in order. -/
def runSched (env : Env) (sched : List Tid) (s : Sess) : Sess :=
  sched.foldl (fun st t => step env t st) s

/-- The method `streamProtocolV3.stream`, under the schedule `sched`: field `out`
of the result is what the call has returned, if it has. -/
def streamProtocolV3.stream (env : Env) (p : streamProtocolV3) (conn : streamCreator)
    (hist : List Header) (g : Globals) (sched : List Tid) : Sess :=
  runSched env sched (p.begin env conn hist g)

/-! ## The executor -/

/-- A negotiated connection (`httpstream.Connection`), named by a handle. -/
structure Conn where
  id : Nat
deriving DecidableEq, Repr

/-- What happens on the connection: a sub-stream is requested, or it is closed. -/
inductive ConnEvent where
  | createStream (headers : Header)
  | close (conn : Conn)
deriving DecidableEq, Repr

/-- The struct `streamExecutor`; the upgrader and the transport are only handed
on to the negotiation. -/
structure streamExecutor where
  method : String
  url : Option String
  protocols : List String
deriving DecidableEq, Repr

/-- The interface `streamProtocolHandler` with its four implementations. -/
inductive streamProtocolHandler where
  | v1 (options : StreamOptions)
  | v2 (options : StreamOptions)
  | v3 (p : streamProtocolV3)
  | v4 (options : StreamOptions)
deriving DecidableEq, Repr

/-- Modelled from the spec: `newStreamProtocolV1` is declared in another file of
the package; it builds the v1 handler from the options. -/
def newStreamProtocolV1 (options : StreamOptions) : streamProtocolHandler :=
  streamProtocolHandler.v1 options

/-- Modelled from the spec: `newStreamProtocolV2` is declared in another file of
the package; it builds the v2 handler from the options. -/
def newStreamProtocolV2 (options : StreamOptions) : streamProtocolHandler :=
  streamProtocolHandler.v2 options

/-- The function `newStreamProtocolV3`: a log call, then the v3 handler around a
fresh v2 handler for the options; `none` is a panic. -/
def newStreamProtocolV3 (options : StreamOptions) (g : Globals) :
    Option (streamProtocolHandler × Globals) :=
  match g.CLog.Debugf "Initializing protocol V3" g with
  | none => none
  | some g1 =>
    some (streamProtocolHandler.v3
      { options := options, errorStream := none, resizeStream := none }, g1)

/-- Modelled from the spec: `newStreamProtocolV4` is declared in another file of
the package; it builds the v4 handler from the options. -/
def newStreamProtocolV4 (options : StreamOptions) : streamProtocolHandler :=
  streamProtocolHandler.v4 options

/-- What a call of a handler's `stream` did: how it ended, the `CreateStream`
calls it issued in order, and the package state. -/
structure HandlerRun where
  out : Outcome
  calls : List Header
  g : Globals

/-- The collaborators of `Stream`: `http.NewRequest` for a method and a URL,
`spdy.Negotiate` for the list of protocols, and the `stream` method of a
handler on a connection. -/
structure ExecEnv where
  newRequest : String → String → Except Error Unit
  negotiate : List String → Except Error (Conn × String)
  stream : streamProtocolHandler → Conn → Globals → HandlerRun

/-- Result of `streamExecutor.Stream`: how it ended, the handler held in the
variable `streamer` (`none` is the nil interface), what happened on the
connection in order, and the package state. -/
structure StreamResult where
  out : Outcome
  streamer : Option streamProtocolHandler
  events : List ConnEvent
  g : Globals

/-- The `switch protocol` of `Stream`: the value of `streamer` after it. No case
matches an unknown identifier, and `streamer` keeps its zero value nil. The
outer `none` is a panic. -/
def selectStreamer (protocol : String) (options : StreamOptions) (g : Globals) :
    Option (Option streamProtocolHandler × Globals) :=
  if protocol = StreamProtocolV4Name then some (some (newStreamProtocolV4 options), g)
  else if protocol = StreamProtocolV3Name then
    match newStreamProtocolV3 options g with
    | none => none
    | some (h, g1) => some (some h, g1)
  else if protocol = StreamProtocolV2Name then some (some (newStreamProtocolV2 options), g)
  else if protocol = "" then
    -- klog.V(4).Infof(...); fallthrough
    some (some (newStreamProtocolV1 options), g)
  else if protocol = StreamProtocolV1Name then some (some (newStreamProtocolV1 options), g)
  else some (none, g)

/-- The body of `Stream` after the `defer`: log, select the handler, log, and
call its `stream`. Calling `stream` on the nil interface panics. -/
def streamBody (x : ExecEnv) (options : StreamOptions) (conn : Conn) (protocol : String)
    (g : Globals) : StreamResult :=
  match g.CLog.Debugf "Stream Protocol Version %d" g with
  | none => { out := Outcome.panicked, streamer := none, events := [], g := g }
  | some g1 =>
    match selectStreamer protocol options g1 with
    | none => { out := Outcome.panicked, streamer := none, events := [], g := g1 }
    | some (streamer, g2) =>
      match g2.CLog.Debugf "Calling stream" g2 with
      | none => { out := Outcome.panicked, streamer := streamer, events := [], g := g2 }
      | some g3 =>
        match streamer with
        | none => { out := Outcome.panicked, streamer := none, events := [], g := g3 }
        | some h =>
          let r := x.stream h conn g3
          { out := r.out, streamer := some h,
            events := r.calls.map ConnEvent.createStream, g := r.g }

/-- The method `streamExecutor.Stream`. The deferred `conn.Close()` runs when the
body returns and when it panics. -/
def streamExecutor.Stream (x : ExecEnv) (e : streamExecutor) (options : StreamOptions)
    (g : Globals) : StreamResult :=
  match e.url with
  | none => { out := Outcome.panicked, streamer := none, events := [], g := g }
  | some url =>
    match x.newRequest e.method url with
    | Except.error err =>
      { out := Outcome.returned (some ("error creating request: " ++ err)),
        streamer := none, events := [], g := g }
    | Except.ok _ =>
      match x.negotiate e.protocols with
      | Except.error err =>
        { out := Outcome.returned (some err), streamer := none, events := [], g := g }
      | Except.ok (conn, protocol) =>
        let body := streamBody x options conn protocol g
        { body with events := body.events ++ [ConnEvent.close conn] }

/-! ## Predicates and sample inputs used by the statements -/

/-- The package state is one that `init` and `SetLogger` produce: both loggers
held by `CLog` are the package variable `log`. -/
def Consistent (g : Globals) : Prop :=
  g.CLog.origLogger = g.log ∧ g.CLog.Logger = g.log

/-- The number of `Next()` calls the pump of a session has begun. -/
def Sess.nextCalls (s : Sess) : Nat :=
  match s.pump with
  | none => 0
  | some ps => ps.nextCalls

/-- The messages written to the resize stream in a session. -/
def Sess.resizeWrites (s : Sess) : List (List Nat) :=
  match s.pump with
  | none => []
  | some ps => ps.writes

/-- The handler that `newStreamProtocolV3` builds for `options`. -/
def freshV3 (options : StreamOptions) : streamProtocolV3 :=
  { options := options, errorStream := none, resizeStream := none }

/-- Sample header of an error stream request. -/
def sampleErrorHeaders : Header := Header.Set [] StreamType "error"

/-- Sample v2 step: it requests the error stream and nothing else. -/
def sampleV2 (_ : StreamOptions) (conn : streamCreator) (hist : List Header) : V2Step :=
  match conn.respond hist sampleErrorHeaders with
  | Except.ok s => { calls := [sampleErrorHeaders], errorStream := some s, err := none }
  | Except.error e => { calls := [sampleErrorHeaders], errorStream := none, err := some e }

/-- Sample environment: sizes are encoded as their two numbers, every write on
the resize stream succeeds, the remote reports no error, and a copy task is
started for each supplied endpoint (stderr only without a TTY). -/
def sampleEnv : Env :=
  { v2CreateStreams := sampleV2
    encode := fun size => [size.columns, size.rows]
    writeOk := fun _ => true
    watcherValue := none
    startsStdin := fun o => o.Stdin.isSome
    startsStdout := fun o => o.Stdout.isSome
    startsStderr := fun o => o.Stderr.isSome && !o.Tty
    stdinResult := none
    stdoutResult := none
    stderrResult := none }

/-- Sample environment in which the first write on the resize stream fails. -/
def sampleEnvFirstWriteFails : Env :=
  { sampleEnv with writeOk := fun k => decide (k ≠ 0) }

/-- Sample environment in which the remote reports an error and both tracked
copies end with an error. -/
def sampleEnvFailing : Env :=
  { sampleEnv with watcherValue := some "command terminated with exit code 2"
                   stdoutResult := some "stdout: broken pipe"
                   stderrResult := some "stderr: broken pipe" }

/-- Sample connection on which every `CreateStream` succeeds. -/
def sampleConn : streamCreator :=
  { respond := fun earlier _ => Except.ok { id := earlier.length } }

/-- Sample connection that refuses the resize stream and grants all others. -/
def sampleConnNoResize : streamCreator :=
  { respond := fun earlier h =>
      if Header.Get h StreamType = some StreamTypeResize then Except.error "no resize"
      else Except.ok { id := earlier.length } }

/-- Sample options: a TTY session with stdin and stdout and the size events
80x24, 100x40 and then the sentinel. -/
def sampleTtyOptions : StreamOptions :=
  { Stdin := some 0, Stdout := some 1, Stderr := none, Tty := true
    TerminalSizeQueue := some { pending := [some ⟨80, 24⟩, some ⟨100, 40⟩, none] } }

/-- Sample options: no TTY, all three endpoints, and a size queue all the same. -/
def samplePlainOptions : StreamOptions :=
  { Stdin := some 0, Stdout := some 1, Stderr := some 2, Tty := false
    TerminalSizeQueue := some { pending := [some ⟨80, 24⟩, none] } }

/-- Sample logger. -/
def sampleLogger : Logger := { id := 7 }

/-- Sample executor with the four protocols, most capable first. -/
def sampleExecutor : streamExecutor :=
  { method := "POST", url := some "https://node/exec"
    protocols := [StreamProtocolV4Name, StreamProtocolV3Name, StreamProtocolV2Name,
      StreamProtocolV1Name] }

/-- Sample collaborators of `Stream`: the negotiation yields connection 1 with
`protocol`, and a handler's `stream` ends as `out` after the calls `calls`. -/
def sampleExecEnv (protocol : String) (out : Outcome) (calls : List Header) : ExecEnv :=
  { newRequest := fun _ _ => Except.ok ()
    negotiate := fun _ => Except.ok ({ id := 1 }, protocol)
    stream := fun _ _ g => { out := out, calls := calls, g := g } }

/-- Whether the encoder holds a write error after the sizes `sizes` were handed
to it one after the other, the first of them by `Encode` call number `k`, when
`failed` tells whether it held one before. -/
def encoderFailed (env : Env) : Bool → Nat → List TerminalSize → Bool
  | failed, _, [] => failed
  | failed, k, _ :: rest => encoderFailed env (failed || !env.writeOk k) (k + 1) rest

/-- The messages that reach the resize stream when the sizes `sizes` are handed
to the encoder one after the other, the first of them by `Encode` call number
`k`: those before the first write that fails, and none when the encoder held
an error before (`failed`). -/
def writesFrom (env : Env) : Bool → Nat → List TerminalSize → List (List Nat)
  | _, _, [] => []
  | failed, k, size :: rest =>
    (if !failed && env.writeOk k then [env.encode size] else []) ++
      writesFrom env (failed || !env.writeOk k) (k + 1) rest

/-- Sample handler state in which the resize stream has been opened. -/
def sampleV3WithResize : streamProtocolV3 :=
  { options := sampleTtyOptions, errorStream := some { id := 0 }, resizeStream := some { id := 1 } }

/-- What holds in every state of a session whose `createStreams` succeeded with
the handler `p1`: the handler and the logger state stay put, the `WaitGroup`
counts the running tracked copies, the pump exists exactly as `handleResizes`
decides, and the main goroutine is past `wg.Wait()` only with both tracked
copies over, and has ended only with the value of the watcher. -/
structure LiveInv (env : Env) (p1 : streamProtocolV3) (s : Sess) : Prop where
  hp : s.p = p1
  hg : Consistent s.g
  hwg : s.wg = (if s.stdoutCopy = Task.running then 1 else 0) +
    (if s.stderrCopy = Task.running then 1 else 0)
  hpump0 : s.pc = Pc.watch ∨ s.pc = Pc.resizes → s.pump = none
  hpump : s.pump ≠ none → p1.resizeStream ≠ none ∧ p1.options.TerminalSizeQueue ≠ none
  hpump1 : s.pc ≠ Pc.watch → s.pc ≠ Pc.resizes → p1.resizeStream ≠ none →
    p1.options.TerminalSizeQueue ≠ none → s.pump ≠ none
  hout0 : s.pc ≠ Pc.done → s.out = none
  hout : s.pc = Pc.done →
    s.out = some (Outcome.returned env.watcherValue) ∧ s.watcher = Watcher.finished
  hso : s.pc = Pc.watch ∨ s.pc = Pc.resizes ∨ s.pc = Pc.stdin ∨ s.pc = Pc.stdout →
    s.stdoutCopy = Task.idle
  hse : s.pc = Pc.watch ∨ s.pc = Pc.resizes ∨ s.pc = Pc.stdin ∨ s.pc = Pc.stdout ∨
    s.pc = Pc.stderr → s.stderrCopy = Task.idle
  hrecv : s.pc = Pc.recv ∨ s.pc = Pc.done →
    s.stdoutCopy ≠ Task.running ∧ s.stderrCopy ≠ Task.running

/-- A schedule that lets the main goroutine start everything, then the tracked
copies and the watcher finish, then the main goroutine pass `wg.Wait()` and
receive; the pump and the stdin copy are given no turn. -/
def directSchedule : List Tid :=
  [Tid.main, Tid.main, Tid.main, Tid.main, Tid.main, Tid.stdoutCopy, Tid.stderrCopy,
    Tid.watcher, Tid.main, Tid.main]

/-! ## The conditional logger: lemmas -/

theorem Debugf_keeps (c : conditionalLogger) (f : String) (g g1 : Globals)
    (h : c.Debugf f g = some g1) : g1.log = g.log ∧ g1.CLog = g.CLog := by
  unfold conditionalLogger.Debugf logrusLogf at h
  split at h
  · split at h
    · simp at h
    · simp at h; subst h; simp
  · simp at h; subst h; simp

theorem Debugf_ok (f : String) (g : Globals) (hg : Consistent g) :
    ∃ g1, g.CLog.Debugf f g = some g1 := by
  unfold conditionalLogger.Debugf logrusLogf
  rw [hg.1]
  cases h : g.log <;> simp

theorem Consistent_of_keeps (g g1 : Globals) (hg : Consistent g)
    (h : g1.log = g.log ∧ g1.CLog = g.CLog) : Consistent g1 := by
  unfold Consistent at *
  rw [h.1, h.2]
  exact hg

theorem Consistent_globals (logger : Option Logger) (sink : List (Level × String)) :
    Consistent (globals logger sink) := by
  simp [Consistent, globals]

theorem guarded_calls_without_logger (c : conditionalLogger) (f : String) (g : Globals)
    (h : g.log = none) :
    c.Tracef f g = some g ∧ c.Debugf f g = some g ∧ c.Infof f g = some g ∧
      c.Warnf f g = some g := by
  simp [conditionalLogger.Tracef, conditionalLogger.Debugf, conditionalLogger.Infof,
    conditionalLogger.Warnf, h]

theorem SetLogger_some (l : Logger) :
    SetLogger (some l) init =
      some (globals (some l) [(Level.info, "Initialized logger for package remotecommand")]) := by
  simp [SetLogger, init, globals, conditionalLogger.Infof, logrusLogf]

/-! ## Protocol v3, creating the streams: lemmas -/

theorem Consistent_eq (g : Globals) (hg : Consistent g) : g = globals g.log g.sink := by
  obtain ⟨log, ⟨o, l⟩, sink⟩ := g
  obtain ⟨h1, h2⟩ := hg
  simp only at h1 h2
  subst h1 h2
  rfl

theorem createStreams_out (env : Env) (p : streamProtocolV3) (conn : streamCreator)
    (hist : List Header) (logger : Option Logger) (sink : List (Level × String)) :
    (p.createStreams env conn hist (globals logger sink)).out =
      match (env.v2CreateStreams p.options conn hist).err with
      | some e => Outcome.returned (some e)
      | none =>
        if p.options.Tty then
          match conn.respond (hist ++ (env.v2CreateStreams p.options conn hist).calls)
              resizeHeaders with
          | Except.ok _ => Outcome.returned none
          | Except.error e =>
            if logger = none then Outcome.panicked else Outcome.returned (some e)
        else Outcome.returned none := by
  cases hv : (env.v2CreateStreams p.options conn hist).err <;>
  cases ht : p.options.Tty <;>
  cases hr : conn.respond (hist ++ (env.v2CreateStreams p.options conn hist).calls)
    resizeHeaders <;>
  cases logger <;>
  simp [streamProtocolV3.createStreams, globals, conditionalLogger.Tracef,
    conditionalLogger.Debugf, conditionalLogger.Errorf, logrusLogf, hv, ht, hr, Consistent]

theorem createStreams_calls (env : Env) (p : streamProtocolV3) (conn : streamCreator)
    (hist : List Header) (logger : Option Logger) (sink : List (Level × String)) :
    (p.createStreams env conn hist (globals logger sink)).calls =
      (env.v2CreateStreams p.options conn hist).calls ++
        (if (env.v2CreateStreams p.options conn hist).err = none ∧ p.options.Tty = true
          then [resizeHeaders] else []) := by
  cases hv : (env.v2CreateStreams p.options conn hist).err <;>
  cases ht : p.options.Tty <;>
  cases hr : conn.respond (hist ++ (env.v2CreateStreams p.options conn hist).calls)
    resizeHeaders <;>
  cases logger <;>
  simp [streamProtocolV3.createStreams, globals, conditionalLogger.Tracef,
    conditionalLogger.Debugf, conditionalLogger.Errorf, logrusLogf, hv, ht, hr, Consistent]

theorem createStreams_resizeStream (env : Env) (p : streamProtocolV3) (conn : streamCreator)
    (hist : List Header) (logger : Option Logger) (sink : List (Level × String)) :
    (p.createStreams env conn hist (globals logger sink)).p.resizeStream =
      match (env.v2CreateStreams p.options conn hist).err with
      | some _ => p.resizeStream
      | none =>
        if p.options.Tty then
          match conn.respond (hist ++ (env.v2CreateStreams p.options conn hist).calls)
              resizeHeaders with
          | Except.ok st => some st
          | Except.error _ => none
        else p.resizeStream := by
  cases hv : (env.v2CreateStreams p.options conn hist).err <;>
  cases ht : p.options.Tty <;>
  cases hr : conn.respond (hist ++ (env.v2CreateStreams p.options conn hist).calls)
    resizeHeaders <;>
  cases logger <;>
  simp [streamProtocolV3.createStreams, globals, conditionalLogger.Tracef,
    conditionalLogger.Debugf, conditionalLogger.Errorf, logrusLogf, hv, ht, hr, Consistent]

theorem createStreams_options (env : Env) (p : streamProtocolV3) (conn : streamCreator)
    (hist : List Header) (logger : Option Logger) (sink : List (Level × String)) :
    (p.createStreams env conn hist (globals logger sink)).p.options = p.options := by
  cases hv : (env.v2CreateStreams p.options conn hist).err <;>
  cases ht : p.options.Tty <;>
  cases hr : conn.respond (hist ++ (env.v2CreateStreams p.options conn hist).calls)
    resizeHeaders <;>
  cases logger <;>
  simp [streamProtocolV3.createStreams, globals, conditionalLogger.Tracef,
    conditionalLogger.Debugf, conditionalLogger.Errorf, logrusLogf, hv, ht, hr, Consistent]

theorem createStreams_keeps (env : Env) (p : streamProtocolV3) (conn : streamCreator)
    (hist : List Header) (logger : Option Logger) (sink : List (Level × String)) :
    Consistent (p.createStreams env conn hist (globals logger sink)).g ∧
      (p.createStreams env conn hist (globals logger sink)).g.log = logger := by
  cases hv : (env.v2CreateStreams p.options conn hist).err <;>
  cases ht : p.options.Tty <;>
  cases hr : conn.respond (hist ++ (env.v2CreateStreams p.options conn hist).calls)
    resizeHeaders <;>
  cases logger <;>
  simp [streamProtocolV3.createStreams, globals, conditionalLogger.Tracef,
    conditionalLogger.Debugf, conditionalLogger.Errorf, logrusLogf, hv, ht, hr, Consistent]

theorem resizeHeaders_role : Header.Get resizeHeaders StreamType = some StreamTypeResize := by
  decide

/-- C5: `streamProtocolV3.createStreams` issues the `CreateStream` calls of the v2
`createStreams` in the same order, followed by one more call, with the resize
role as stream type, exactly when the v2 step succeeded and `Tty` is true; with
`Tty` false the calls and the returned error are those of v2 and `resizeStream`
is left as it was; when the v2 step fails its error is returned and no resize
stream is requested. -/
theorem createStreams_v3_extends_v2 (env : Env) (p : streamProtocolV3) (conn : streamCreator)
    (hist : List Header) (logger : Option Logger) (sink : List (Level × String)) :
    (p.createStreams env conn hist (globals logger sink)).calls =
        (env.v2CreateStreams p.options conn hist).calls ++
          (if (env.v2CreateStreams p.options conn hist).err = none ∧ p.options.Tty = true
            then [resizeHeaders] else []) ∧
      Header.Get resizeHeaders StreamType = some StreamTypeResize ∧
      (p.options.Tty = false →
        (p.createStreams env conn hist (globals logger sink)).calls =
            (env.v2CreateStreams p.options conn hist).calls ∧
          (p.createStreams env conn hist (globals logger sink)).out =
            Outcome.returned (env.v2CreateStreams p.options conn hist).err ∧
          (p.createStreams env conn hist (globals logger sink)).p.resizeStream =
            p.resizeStream) ∧
      (∀ e, (env.v2CreateStreams p.options conn hist).err = some e →
        (p.createStreams env conn hist (globals logger sink)).calls =
            (env.v2CreateStreams p.options conn hist).calls ∧
          (p.createStreams env conn hist (globals logger sink)).out =
            Outcome.returned (some e) ∧
          (p.createStreams env conn hist (globals logger sink)).p.resizeStream =
            p.resizeStream) := by
  refine ⟨createStreams_calls env p conn hist logger sink, resizeHeaders_role, ?_, ?_⟩
  · intro ht
    rw [createStreams_calls, createStreams_out, createStreams_resizeStream]
    cases hv : (env.v2CreateStreams p.options conn hist).err <;> simp [ht]
  · intro e he
    rw [createStreams_calls, createStreams_out, createStreams_resizeStream]
    simp [he]

/-- A TTY session on a connection that grants every stream: the resize stream
is requested after the stream of the v2 step. -/
theorem createStreams_v3_extends_v2_witness :
    ((freshV3 sampleTtyOptions).createStreams sampleEnv sampleConn [] init).calls =
      [sampleErrorHeaders, resizeHeaders] :=
  (createStreams_v3_extends_v2 sampleEnv (freshV3 sampleTtyOptions) sampleConn [] none []).1

/-! ## The resize pump: lemmas -/

theorem pumpIter_size (env : Env) (logger : Option Logger) (sink : List (Level × String))
    (ps : PumpState) (size : TerminalSize) (rest : List (Option TerminalSize))
    (hs : ps.status = PumpStatus.running) (hq : ps.queue = some size :: rest)
    (hw : logger = none →
      ps.encoderErr = false ∧ env.writeOk ps.encodeCalls.length = true) :
    ∃ sink1, pumpIter env (globals logger sink) ps =
      (globals logger sink1,
        { queue := rest, nextCalls := ps.nextCalls + 1,
          encodeCalls := ps.encodeCalls ++ [size],
          writes := ps.writes ++ writesFrom env ps.encoderErr ps.encodeCalls.length [size],
          encoderErr := ps.encoderErr || !env.writeOk ps.encodeCalls.length,
          status := PumpStatus.running }) := by
  cases logger with
  | none =>
    refine ⟨sink, ?_⟩
    obtain ⟨he, hk⟩ := hw rfl
    simp [pumpIter, pumpNext, hs, hq, he, hk, globals, conditionalLogger.Debugf, writesFrom]
  | some l =>
    cases he : ps.encoderErr <;> cases hk : env.writeOk ps.encodeCalls.length
    · refine ⟨sink ++ [(Level.debug, "Calling Next() on terminalsizequeue.")] ++
        [(Level.error, "Unable to encode size.")], ?_⟩
      simp [pumpIter, pumpNext, hs, hq, he, hk, globals, conditionalLogger.Debugf, writesFrom,
        logrusLogf, conditionalLogger.Errorf]
    · refine ⟨sink ++ [(Level.debug, "Calling Next() on terminalsizequeue.")], ?_⟩
      simp [pumpIter, pumpNext, hs, hq, he, hk, globals, conditionalLogger.Debugf, writesFrom,
        logrusLogf]
    · refine ⟨sink ++ [(Level.debug, "Calling Next() on terminalsizequeue.")] ++
        [(Level.error, "Unable to encode size.")], ?_⟩
      simp [pumpIter, pumpNext, hs, hq, he, hk, globals, conditionalLogger.Debugf, writesFrom,
        logrusLogf, conditionalLogger.Errorf]
    · refine ⟨sink ++ [(Level.debug, "Calling Next() on terminalsizequeue.")] ++
        [(Level.error, "Unable to encode size.")], ?_⟩
      simp [pumpIter, pumpNext, hs, hq, he, hk, globals, conditionalLogger.Debugf, writesFrom,
        logrusLogf, conditionalLogger.Errorf]

theorem pumpIter_sentinel (env : Env) (logger : Option Logger) (sink : List (Level × String))
    (ps : PumpState) (rest : List (Option TerminalSize))
    (hs : ps.status = PumpStatus.running) (hq : ps.queue = none :: rest) :
    ∃ sink1, pumpIter env (globals logger sink) ps =
      (globals logger sink1,
        { queue := rest, nextCalls := ps.nextCalls + 1, encodeCalls := ps.encodeCalls,
          writes := ps.writes, encoderErr := ps.encoderErr,
          status := if logger = none then PumpStatus.panicked else PumpStatus.returned }) := by
  cases logger with
  | none =>
    refine ⟨sink, ?_⟩
    simp [pumpIter, pumpNext, hs, hq, globals, conditionalLogger.Debugf,
      conditionalLogger.Errorf, logrusLogf]
  | some l =>
    refine ⟨sink ++ [(Level.debug, "Calling Next() on terminalsizequeue.")] ++
      [(Level.error, "Got empty size.")], ?_⟩
    simp [pumpIter, pumpNext, hs, hq, globals, conditionalLogger.Debugf,
      conditionalLogger.Errorf, logrusLogf]

theorem pumpRun_ended (env : Env) (n : Nat) (g : Globals) (ps : PumpState)
    (hs : ps.status = PumpStatus.returned ∨ ps.status = PumpStatus.panicked) :
    pumpRun env n g ps = (g, ps) := by
  induction n with
  | zero => rfl
  | succ n ih =>
    have h1 : pumpIter env g ps = (g, ps) := by
      rcases hs with hs | hs <;> simp [pumpIter, hs]
    simp [pumpRun, h1, ih]

theorem pumpRun_add (env : Env) (m n : Nat) (g : Globals) (ps : PumpState) :
    pumpRun env (m + n) g ps =
      pumpRun env n (pumpRun env m g ps).1 (pumpRun env m g ps).2 := by
  induction m generalizing g ps with
  | zero => simp [pumpRun]
  | succ m ih =>
    rw [Nat.add_right_comm]
    simp [pumpRun, ih]

theorem writesFrom_all_ok (env : Env) (hw : ∀ k, env.writeOk k = true)
    (xs : List TerminalSize) (k : Nat) :
    writesFrom env false k xs = xs.map env.encode ∧ encoderFailed env false k xs = false := by
  induction xs generalizing k with
  | nil => simp [writesFrom, encoderFailed]
  | cons x xs ih => simp [writesFrom, encoderFailed, ih, hw]

/-- An encoder that holds a write error writes nothing more and keeps the error. -/
theorem writesFrom_failed (env : Env) (xs : List TerminalSize) (k : Nat) :
    writesFrom env true k xs = [] ∧ encoderFailed env true k xs = true := by
  induction xs generalizing k with
  | nil => simp [writesFrom, encoderFailed]
  | cons x xs ih => simp [writesFrom, encoderFailed, ih]

theorem pumpRun_sizes (env : Env) (logger : Option Logger)
    (hw : logger = none → ∀ k, env.writeOk k = true) (q : List (Option TerminalSize))
    (sizes : List TerminalSize) :
    ∀ (sink : List (Level × String)) (ps : PumpState),
      ps.status = PumpStatus.running → ps.queue = sizes.map some ++ q →
      (logger = none → ps.encoderErr = false) →
      ∃ sink1, pumpRun env sizes.length (globals logger sink) ps =
        (globals logger sink1,
          { queue := q, nextCalls := ps.nextCalls + sizes.length,
            encodeCalls := ps.encodeCalls ++ sizes,
            writes := ps.writes ++ writesFrom env ps.encoderErr ps.encodeCalls.length sizes,
            encoderErr := encoderFailed env ps.encoderErr ps.encodeCalls.length sizes,
            status := PumpStatus.running }) := by
  induction sizes with
  | nil =>
    intro sink ps hs hq _
    refine ⟨sink, ?_⟩
    obtain ⟨qu, nc, ec, wr, er, st⟩ := ps
    simp at hs hq
    simp [pumpRun, writesFrom, encoderFailed, hs, hq]
  | cons size sizes ih =>
    intro sink ps hs hq he
    obtain ⟨sink1, h1⟩ := pumpIter_size env logger sink ps size (sizes.map some ++ q) hs
      (by simpa using hq) (fun h => ⟨he h, hw h _⟩)
    obtain ⟨sink2, h2⟩ := ih sink1
      { queue := sizes.map some ++ q, nextCalls := ps.nextCalls + 1,
        encodeCalls := ps.encodeCalls ++ [size],
        writes := ps.writes ++ writesFrom env ps.encoderErr ps.encodeCalls.length [size],
        encoderErr := ps.encoderErr || !env.writeOk ps.encodeCalls.length,
        status := PumpStatus.running } rfl rfl
      (fun h => by simp [he h, hw h])
    refine ⟨sink2, ?_⟩
    simp only [List.length_cons, pumpRun, h1, h2]
    simp [writesFrom, encoderFailed, Nat.add_assoc, Nat.add_comm 1]

theorem pumpIter_keeps (env : Env) (g : Globals) (ps : PumpState) (hg : Consistent g) :
    Consistent (pumpIter env g ps).1 := by
  rw [Consistent_eq g hg]
  obtain ⟨qu, nc, ec, wr, er, st⟩ := ps
  cases st <;> cases g.log <;> rcases qu with _ | ⟨_ | size, rest⟩ <;>
    simp [pumpIter, pumpNext, globals, conditionalLogger.Debugf, conditionalLogger.Errorf,
      logrusLogf, Consistent] <;>
    split <;> simp

theorem handleResizes_globals (p : streamProtocolV3) (logger : Option Logger)
    (sink : List (Level × String)) :
    ∃ sink1, p.handleResizes (globals logger sink) =
      some (globals logger sink1,
        match p.resizeStream, p.options.TerminalSizeQueue with
        | some _, some q => some (PumpState.start q)
        | _, _ => none) := by
  cases logger with
  | none =>
    refine ⟨sink, ?_⟩
    cases hr : p.resizeStream <;> cases hq : p.options.TerminalSizeQueue <;>
      simp [streamProtocolV3.handleResizes, globals, conditionalLogger.Debugf,
        conditionalLogger.Tracef, hr, hq]
  | some l =>
    refine ⟨sink ++ [(Level.debug, "someone called handleResise()"),
      (Level.trace, "p.resizeStream: %s"), (Level.trace, "p.TerminalSizeQueue: %s")], ?_⟩
    cases hr : p.resizeStream <;> cases hq : p.options.TerminalSizeQueue <;>
      simp [streamProtocolV3.handleResizes, globals, conditionalLogger.Debugf,
        conditionalLogger.Tracef, logrusLogf, hr, hq]

theorem handleResizes_ok (p : streamProtocolV3) (g : Globals) (hg : Consistent g) :
    ∃ g1 pump, Consistent g1 ∧ p.handleResizes g = some (g1, pump) ∧
      (pump ≠ none ↔ p.resizeStream ≠ none ∧ p.options.TerminalSizeQueue ≠ none) ∧
      (∀ ps, pump = some ps → ps.status = PumpStatus.running ∧ ps.nextCalls = 0 ∧
        ps.writes = [] ∧ p.options.TerminalSizeQueue = some ⟨ps.queue⟩) := by
  rw [Consistent_eq g hg]
  obtain ⟨sink1, h⟩ := handleResizes_globals p g.log g.sink
  refine ⟨_, _, Consistent_globals g.log sink1, h, ?_, ?_⟩
  · cases p.resizeStream <;> cases p.options.TerminalSizeQueue <;> simp
  · intro ps
    cases p.resizeStream <;> cases p.options.TerminalSizeQueue <;> simp [PumpState.start]
    rintro rfl
    simp

/-! ## The session: lemmas -/

theorem LiveInv_fresh (env : Env) (p1 : streamProtocolV3) (g : Globals) (calls : List Header)
    (hg : Consistent g) : LiveInv env p1 (Sess.fresh g p1 calls Pc.watch none) := by
  constructor <;> simp [Sess.fresh, hg]

theorem LiveInv_mainStep (env : Env) (p1 : streamProtocolV3) (s : Sess)
    (h : LiveInv env p1 s) : LiveInv env p1 (mainStep env s) := by
  obtain ⟨hp, hg, hwg, hpump0, hpump, hpump1, hout0, hout, hso, hse, hrecv⟩ := h
  cases hpc : s.pc with
  | watch =>
    simp only [mainStep, hpc]
    constructor <;> simp_all
  | resizes =>
    obtain ⟨g1, hD⟩ := Debugf_ok "Calling handleResizes()" s.g hg
    have hg1 := Consistent_of_keeps _ _ hg (Debugf_keeps _ _ _ _ hD)
    obtain ⟨g2, pump, hg2, hH, hiff, _⟩ := handleResizes_ok s.p g1 hg1
    simp only [mainStep, hpc, hD, hH]
    constructor <;> simp_all
  | stdin =>
    simp only [mainStep, hpc]
    split <;> constructor <;> simp_all
  | stdout =>
    simp only [mainStep, hpc]
    split <;> constructor <;> simp_all
  | stderr =>
    simp only [mainStep, hpc]
    split <;> constructor <;> simp_all
  | wait =>
    simp only [mainStep, hpc]
    split
    · rename_i h0
      have hz : (if s.stdoutCopy = Task.running then 1 else 0) +
          (if s.stderrCopy = Task.running then 1 else 0) = 0 := by
        rw [← hwg]
        exact h0
      have hne : s.stdoutCopy ≠ Task.running ∧ s.stderrCopy ≠ Task.running := by
        constructor <;> intro hc <;> simp [hc] at hz
      clear hz
      refine ⟨hp, hg, hwg, ?_, hpump, ?_, ?_, ?_, ?_, ?_, ?_⟩ <;> (clear hwg h0; simp_all)
    · exact ⟨hp, hg, hwg, hpump0, hpump, hpump1, hout0, hout, hso, hse, hrecv⟩
  | recv =>
    simp only [mainStep, hpc]
    split
    · refine ⟨hp, hg, hwg, ?_, hpump, ?_, ?_, ?_, ?_, ?_, ?_⟩ <;> clear hwg <;> simp_all
    · exact ⟨hp, hg, hwg, hpump0, hpump, hpump1, hout0, hout, hso, hse, hrecv⟩
  | done =>
    simp only [mainStep, hpc]
    exact ⟨hp, hg, hwg, hpump0, hpump, hpump1, hout0, hout, hso, hse, hrecv⟩

theorem LiveInv_step (env : Env) (p1 : streamProtocolV3) (t : Tid) (s : Sess)
    (h : LiveInv env p1 s) : LiveInv env p1 (step env t s) := by
  unfold step
  split
  · exact h
  · cases t with
    | main => exact LiveInv_mainStep env p1 s h
    | watcher =>
      obtain ⟨hp, hg, hwg, hpump0, hpump, hpump1, hout0, hout, hso, hse, hrecv⟩ := h
      simp only
      split
      · rename_i hw
        refine ⟨hp, hg, hwg, hpump0, hpump, hpump1, hout0, ?_, hso, hse, hrecv⟩
        intro hd
        have := (hout hd).2
        simp_all
      · exact ⟨hp, hg, hwg, hpump0, hpump, hpump1, hout0, hout, hso, hse, hrecv⟩
    | stdinCopy =>
      obtain ⟨hp, hg, hwg, hpump0, hpump, hpump1, hout0, hout, hso, hse, hrecv⟩ := h
      simp only
      split
      · exact ⟨hp, hg, hwg, hpump0, hpump, hpump1, hout0, hout, hso, hse, hrecv⟩
      · exact ⟨hp, hg, hwg, hpump0, hpump, hpump1, hout0, hout, hso, hse, hrecv⟩
    | stdoutCopy =>
      obtain ⟨hp, hg, hwg, hpump0, hpump, hpump1, hout0, hout, hso, hse, hrecv⟩ := h
      simp only
      split
      · rename_i hr
        refine ⟨hp, hg, ?_, hpump0, hpump, hpump1, hout0, hout, ?_, hse, ?_⟩
        · simp only [hr] at hwg
          simp [hwg]
        · intro hc
          have := hso hc
          simp_all
        · intro hc
          have := hrecv hc
          simp_all
      · exact ⟨hp, hg, hwg, hpump0, hpump, hpump1, hout0, hout, hso, hse, hrecv⟩
    | stderrCopy =>
      obtain ⟨hp, hg, hwg, hpump0, hpump, hpump1, hout0, hout, hso, hse, hrecv⟩ := h
      simp only
      split
      · rename_i hr
        refine ⟨hp, hg, ?_, hpump0, hpump, hpump1, hout0, hout, hso, ?_, ?_⟩
        · simp only [hr] at hwg
          simp [hwg]
        · intro hc
          have := hse hc
          simp_all
        · intro hc
          have := hrecv hc
          simp_all
      · exact ⟨hp, hg, hwg, hpump0, hpump, hpump1, hout0, hout, hso, hse, hrecv⟩
    | pump =>
      obtain ⟨hp, hg, hwg, hpump0, hpump, hpump1, hout0, hout, hso, hse, hrecv⟩ := h
      simp only
      split
      · exact ⟨hp, hg, hwg, hpump0, hpump, hpump1, hout0, hout, hso, hse, hrecv⟩
      · rename_i ps hps
        refine ⟨hp, pumpIter_keeps env s.g ps hg, hwg, ?_, ?_, ?_, hout0, hout, hso, hse, hrecv⟩
        · intro hc
          have := hpump0 hc
          simp_all
        · intro _
          exact hpump (by simp [hps])
        · intro _ _ _ _
          simp

theorem LiveInv_runSched (env : Env) (p1 : streamProtocolV3) (sched : List Tid) :
    ∀ s, LiveInv env p1 s → LiveInv env p1 (runSched env sched s) := by
  induction sched with
  | nil => intro s h; exact h
  | cons t sched ih =>
    intro s h
    simp only [runSched, List.foldl_cons]
    exact ih _ (LiveInv_step env p1 t s h)

theorem Debugf_globals (f : String) (logger : Option Logger) (sink : List (Level × String)) :
    ∃ sink1, (globals logger sink).CLog.Debugf f (globals logger sink) =
      some (globals logger sink1) := by
  cases logger with
  | none => exact ⟨sink, by simp [globals, conditionalLogger.Debugf]⟩
  | some l =>
    exact ⟨sink ++ [(Level.debug, f)], by simp [globals, conditionalLogger.Debugf, logrusLogf]⟩

theorem createStreams_out_sink (env : Env) (p : streamProtocolV3) (conn : streamCreator)
    (hist : List Header) (logger : Option Logger) (sink sink0 : List (Level × String)) :
    (p.createStreams env conn hist (globals logger sink)).out =
      (p.createStreams env conn hist (globals logger sink0)).out := by
  rw [createStreams_out, createStreams_out]

theorem createStreams_calls_sink (env : Env) (p : streamProtocolV3) (conn : streamCreator)
    (hist : List Header) (logger : Option Logger) (sink sink0 : List (Level × String)) :
    (p.createStreams env conn hist (globals logger sink)).calls =
      (p.createStreams env conn hist (globals logger sink0)).calls := by
  rw [createStreams_calls, createStreams_calls]

theorem createStreams_resizeStream_of_fail (env : Env) (p : streamProtocolV3)
    (conn : streamCreator) (hist : List Header) (logger : Option Logger)
    (sink : List (Level × String))
    (h : (p.createStreams env conn hist (globals logger sink)).out ≠ Outcome.returned none)
    (hp : p.resizeStream = none) :
    (p.createStreams env conn hist (globals logger sink)).p.resizeStream = none := by
  rw [createStreams_out] at h
  rw [createStreams_resizeStream]
  cases hv : (env.v2CreateStreams p.options conn hist).err <;>
  cases ht : p.options.Tty <;>
  cases hr : conn.respond (hist ++ (env.v2CreateStreams p.options conn hist).calls)
    resizeHeaders <;>
  simp_all

theorem step_fresh_done (env : Env) (t : Tid) (g : Globals) (p : streamProtocolV3)
    (calls : List Header) (out : Option Outcome) :
    step env t (Sess.fresh g p calls Pc.done out) = Sess.fresh g p calls Pc.done out := by
  cases t <;> simp [step, mainStep, Sess.fresh]

theorem runSched_fresh_done (env : Env) (sched : List Tid) (g : Globals)
    (p : streamProtocolV3) (calls : List Header) (out : Option Outcome) :
    runSched env sched (Sess.fresh g p calls Pc.done out) = Sess.fresh g p calls Pc.done out := by
  induction sched with
  | nil => rfl
  | cons t sched ih =>
    simp only [runSched, List.foldl_cons, step_fresh_done]
    exact ih

theorem step_calls (env : Env) (t : Tid) (s : Sess) : (step env t s).calls = s.calls := by
  unfold step mainStep
  repeat' split
  all_goals rfl

theorem runSched_calls (env : Env) (sched : List Tid) :
    ∀ s, (runSched env sched s).calls = s.calls := by
  induction sched with
  | nil => intro s; rfl
  | cons t sched ih =>
    intro s
    simp only [runSched, List.foldl_cons]
    exact (ih _).trans (step_calls env t s)

theorem stream_cases (env : Env) (p : streamProtocolV3) (conn : streamCreator)
    (hist : List Header) (logger : Option Logger) (sink : List (Level × String))
    (sched : List Tid) :
    ∃ sink1,
      ((p.createStreams env conn hist (globals logger sink1)).out = Outcome.returned none ∧
        LiveInv env (p.createStreams env conn hist (globals logger sink1)).p
          (p.stream env conn hist (globals logger sink) sched) ∧
        (p.stream env conn hist (globals logger sink) sched).calls =
          (p.createStreams env conn hist (globals logger sink1)).calls) ∨
      ((p.createStreams env conn hist (globals logger sink1)).out ≠ Outcome.returned none ∧
        p.stream env conn hist (globals logger sink) sched =
          Sess.fresh (p.createStreams env conn hist (globals logger sink1)).g
            (p.createStreams env conn hist (globals logger sink1)).p
            (p.createStreams env conn hist (globals logger sink1)).calls Pc.done
            (some (p.createStreams env conn hist (globals logger sink1)).out)) := by
  obtain ⟨sink1, hD⟩ := Debugf_globals "Create Streams" logger sink
  refine ⟨sink1, ?_⟩
  unfold streamProtocolV3.stream streamProtocolV3.begin
  simp only [hD]
  cases ho : (p.createStreams env conn hist (globals logger sink1)).out with
  | panicked =>
    right
    simp [runSched_fresh_done]
  | returned err =>
    cases err with
    | some e =>
      right
      simp [runSched_fresh_done]
    | none =>
      left
      refine ⟨rfl, ?_, ?_⟩
      · exact LiveInv_runSched env _ sched _
          (LiveInv_fresh env _ _ _ (createStreams_keeps env p conn hist logger sink1).1)
      · simp [runSched_calls, Sess.fresh]

theorem directSchedule_run (env : Env) (g : Globals) (p : streamProtocolV3)
    (calls : List Header) (hg : Consistent g) :
    (runSched env directSchedule (Sess.fresh g p calls Pc.watch none)).out =
        some (Outcome.returned env.watcherValue) ∧
      ∀ ps, (runSched env directSchedule (Sess.fresh g p calls Pc.watch none)).pump = some ps →
        ps.status = PumpStatus.running ∧ ps.nextCalls = 0 ∧ ps.writes = [] := by
  obtain ⟨g1, hD⟩ := Debugf_ok "Calling handleResizes()" g hg
  have hg1 := Consistent_of_keeps _ _ hg (Debugf_keeps _ _ _ _ hD)
  obtain ⟨g2, pump, hg2, hH, _, hps⟩ := handleResizes_ok p g1 hg1
  cases h1 : env.startsStdin p.options <;> cases h2 : env.startsStdout p.options <;>
    cases h3 : env.startsStderr p.options <;>
    simp [runSched, directSchedule, step, mainStep, Sess.fresh, hD, hH, h1, h2, h3] <;>
    intro ps hp <;> exact ⟨(hps ps hp).1, (hps ps hp).2.1, (hps ps hp).2.2.1⟩

/-! ## Protocol v3: the session theorems -/

/-- C8: whenever `createStreams` returns an error, `streamProtocolV3.stream`
returns exactly that error and has started nothing, under every schedule: no
error-stream watcher, no resize pump (no `Next()` call), no stdin, stdout or
stderr copy, and no call on the connection beyond those of `createStreams`.
The records already logged (`sink`, `sink0`) do not matter. -/
theorem stream_v3_creation_failure_starts_nothing (env : Env) (p : streamProtocolV3)
    (conn : streamCreator) (hist : List Header) (logger : Option Logger)
    (sink sink0 : List (Level × String)) (e : Error) (sched : List Tid)
    (h : (p.createStreams env conn hist (globals logger sink0)).out =
      Outcome.returned (some e)) :
    (p.stream env conn hist (globals logger sink) sched).out =
        some (Outcome.returned (some e)) ∧
      (p.stream env conn hist (globals logger sink) sched).pc = Pc.done ∧
      (p.stream env conn hist (globals logger sink) sched).watcher = Watcher.idle ∧
      (p.stream env conn hist (globals logger sink) sched).pump = none ∧
      (p.stream env conn hist (globals logger sink) sched).nextCalls = 0 ∧
      (p.stream env conn hist (globals logger sink) sched).stdinCopy = Task.idle ∧
      (p.stream env conn hist (globals logger sink) sched).stdoutCopy = Task.idle ∧
      (p.stream env conn hist (globals logger sink) sched).stderrCopy = Task.idle ∧
      (p.stream env conn hist (globals logger sink) sched).calls =
        (p.createStreams env conn hist (globals logger sink0)).calls := by
  obtain ⟨sink1, hc⟩ := stream_cases env p conn hist logger sink sched
  have ho := createStreams_out_sink env p conn hist logger sink1 sink0
  rw [h] at ho
  rcases hc with ⟨h1, _, _⟩ | ⟨_, h2⟩
  · rw [ho] at h1
    simp at h1
  · rw [h2, ho, createStreams_calls_sink env p conn hist logger sink1 sink0]
    simp [Sess.fresh, Sess.nextCalls]

/-- A session on a connection that refuses the resize stream, with a logger
installed: `stream` returns the error of the connection and starts no watcher. -/
theorem stream_v3_creation_failure_starts_nothing_witness :
    ((freshV3 sampleTtyOptions).createStreams sampleEnv sampleConnNoResize []
        (globals (some sampleLogger) [])).out = Outcome.returned (some "no resize") ∧
      ((freshV3 sampleTtyOptions).stream sampleEnv sampleConnNoResize []
        (globals (some sampleLogger) []) directSchedule).out =
        some (Outcome.returned (some "no resize")) ∧
      ((freshV3 sampleTtyOptions).stream sampleEnv sampleConnNoResize []
        (globals (some sampleLogger) []) directSchedule).watcher = Watcher.idle :=
  ⟨by decide,
    (stream_v3_creation_failure_starts_nothing sampleEnv (freshV3 sampleTtyOptions)
      sampleConnNoResize [] (some sampleLogger) [] [] "no resize" directSchedule
      (by decide)).1,
    (stream_v3_creation_failure_starts_nothing sampleEnv (freshV3 sampleTtyOptions)
      sampleConnNoResize [] (some sampleLogger) [] [] "no resize" directSchedule
      (by decide)).2.2.1⟩

/-- C9: in a v3 session whose `createStreams` succeeds, under every schedule, a
value returned by `streamProtocolV3.stream` is the value delivered by the
error-stream watcher, which has then finished, whatever the copies and the pump
did, and at that point neither the stdout copy nor the stderr copy is still
running. The call does return that value under the direct schedule, in which
the pump, if started, has not been given a single turn: its end is not waited
for. -/
theorem stream_v3_returns_watcher_value (env : Env) (p : streamProtocolV3)
    (conn : streamCreator) (hist : List Header) (logger : Option Logger)
    (sink sink0 : List (Level × String))
    (h : (p.createStreams env conn hist (globals logger sink0)).out = Outcome.returned none) :
    (∀ sched v, (p.stream env conn hist (globals logger sink) sched).out =
        some (Outcome.returned v) →
        v = env.watcherValue ∧
        (p.stream env conn hist (globals logger sink) sched).watcher = Watcher.finished ∧
        (p.stream env conn hist (globals logger sink) sched).stdoutCopy ≠ Task.running ∧
        (p.stream env conn hist (globals logger sink) sched).stderrCopy ≠ Task.running) ∧
      (∀ sched, (p.stream env conn hist (globals logger sink) sched).out ≠
        some Outcome.panicked) ∧
      (p.stream env conn hist (globals logger sink) directSchedule).out =
        some (Outcome.returned env.watcherValue) ∧
      (∀ ps, (p.stream env conn hist (globals logger sink) directSchedule).pump = some ps →
        ps.status = PumpStatus.running ∧ ps.nextCalls = 0 ∧ ps.writes = []) := by
  have live : ∀ sched, ∃ p1, LiveInv env p1 (p.stream env conn hist (globals logger sink) sched) := by
    intro sched
    obtain ⟨sink1, hc⟩ := stream_cases env p conn hist logger sink sched
    have ho := createStreams_out_sink env p conn hist logger sink1 sink0
    rw [h] at ho
    rcases hc with ⟨_, h1, _⟩ | ⟨h2, _⟩
    · exact ⟨_, h1⟩
    · exact absurd ho h2
  refine ⟨?_, ?_, ?_, ?_⟩
  · intro sched v hv
    obtain ⟨p1, inv⟩ := live sched
    have hd : (p.stream env conn hist (globals logger sink) sched).pc = Pc.done := by
      by_contra hne
      rw [inv.hout0 hne] at hv
      simp at hv
    have h1 := inv.hout hd
    have h2 := inv.hrecv (Or.inr hd)
    rw [h1.1] at hv
    simp at hv
    exact ⟨hv.symm, h1.2, h2.1, h2.2⟩
  · intro sched hv
    obtain ⟨p1, inv⟩ := live sched
    by_cases hd : (p.stream env conn hist (globals logger sink) sched).pc = Pc.done
    · rw [(inv.hout hd).1] at hv
      simp at hv
    · rw [inv.hout0 hd] at hv
      simp at hv
  · obtain ⟨sink1, hD⟩ := Debugf_globals "Create Streams" logger sink
    have ho := createStreams_out_sink env p conn hist logger sink1 sink0
    rw [h] at ho
    unfold streamProtocolV3.stream streamProtocolV3.begin
    simp only [hD, ho]
    exact (directSchedule_run env _ _ _ (createStreams_keeps env p conn hist logger sink1).1).1
  · obtain ⟨sink1, hD⟩ := Debugf_globals "Create Streams" logger sink
    have ho := createStreams_out_sink env p conn hist logger sink1 sink0
    rw [h] at ho
    unfold streamProtocolV3.stream streamProtocolV3.begin
    simp only [hD, ho]
    exact (directSchedule_run env _ _ _ (createStreams_keeps env p conn hist logger sink1).1).2

/-- A TTY session with no logger in which the remote reports an error and both
tracked copies fail: `stream` returns the error reported by the remote. -/
theorem stream_v3_returns_watcher_value_witness :
    ((freshV3 sampleTtyOptions).createStreams sampleEnvFailing sampleConn [] init).out =
        Outcome.returned none ∧
      ((freshV3 sampleTtyOptions).stream sampleEnvFailing sampleConn [] init
        directSchedule).out =
        some (Outcome.returned (some "command terminated with exit code 2")) :=
  ⟨by decide,
    (stream_v3_returns_watcher_value sampleEnvFailing (freshV3 sampleTtyOptions) sampleConn []
      none [] [] (by decide)).2.2.1⟩

/-- C10: in a v3 session, under every schedule, a resize pump has been started
only if a resize sub-stream was opened and a `TerminalSizeQueue` was supplied,
and once the main goroutine is past `handleResizes` it has been started if both
hold. With `Tty` false no resize sub-stream is requested or opened and `Next()`
is never called, whether or not a queue is present; with a nil
`TerminalSizeQueue` nothing is ever written to the resize sub-stream. -/
theorem resize_pump_runs_iff_stream_and_queue (env : Env) (options : StreamOptions)
    (conn : streamCreator) (hist : List Header) (logger : Option Logger)
    (sink : List (Level × String)) (sched : List Tid) :
    (((freshV3 options).stream env conn hist (globals logger sink) sched).pump ≠ none →
        ((freshV3 options).stream env conn hist (globals logger sink) sched).p.resizeStream ≠
            none ∧
          options.TerminalSizeQueue ≠ none) ∧
      (((freshV3 options).stream env conn hist (globals logger sink) sched).pc ≠ Pc.watch →
        ((freshV3 options).stream env conn hist (globals logger sink) sched).pc ≠ Pc.resizes →
        ((freshV3 options).stream env conn hist (globals logger sink) sched).p.resizeStream ≠
          none →
        options.TerminalSizeQueue ≠ none →
        ((freshV3 options).stream env conn hist (globals logger sink) sched).pump ≠ none) ∧
      (options.Tty = false →
        ((freshV3 options).stream env conn hist (globals logger sink) sched).p.resizeStream =
            none ∧
          ((freshV3 options).stream env conn hist (globals logger sink) sched).calls =
            (env.v2CreateStreams options conn hist).calls ∧
          ((freshV3 options).stream env conn hist (globals logger sink) sched).pump = none ∧
          ((freshV3 options).stream env conn hist (globals logger sink) sched).nextCalls = 0) ∧
      (options.TerminalSizeQueue = none →
        ((freshV3 options).stream env conn hist (globals logger sink) sched).pump = none ∧
          ((freshV3 options).stream env conn hist (globals logger sink) sched).resizeWrites =
            []) := by
  obtain ⟨sink1, hc⟩ := stream_cases env (freshV3 options) conn hist logger sink sched
  have hopt := createStreams_options env (freshV3 options) conn hist logger sink1
  have hrs := createStreams_resizeStream env (freshV3 options) conn hist logger sink1
  have hcl := createStreams_calls env (freshV3 options) conn hist logger sink1
  have hf : (freshV3 options).options = options := rfl
  rw [hf] at hopt hrs hcl
  rcases hc with ⟨_, inv, hcalls⟩ | ⟨hne, heq⟩
  · have hp := inv.hp
    have hpump := inv.hpump
    have hpump1 := inv.hpump1
    rw [hopt] at hpump hpump1
    refine ⟨?_, ?_, ?_, ?_⟩
    · intro h
      rw [hp]
      exact hpump h
    · intro h1 h2 h3 h4
      rw [hp] at h3
      exact hpump1 h1 h2 h3 h4
    · intro ht
      have hnone : ((freshV3 options).createStreams env conn hist
          (globals logger sink1)).p.resizeStream = none := by
        rw [hrs]
        cases (env.v2CreateStreams options conn hist).err <;> simp [ht, freshV3]
      have hpn : ((freshV3 options).stream env conn hist (globals logger sink) sched).pump =
          none := by
        by_contra hc
        exact (hpump hc).1 hnone
      refine ⟨by rw [hp]; exact hnone, ?_, hpn, by simp [Sess.nextCalls, hpn]⟩
      rw [hcalls, hcl]
      simp [ht]
    · intro hq
      have hpn : ((freshV3 options).stream env conn hist (globals logger sink) sched).pump =
          none := by
        by_contra hc
        exact (hpump hc).2 hq
      exact ⟨hpn, by simp [Sess.resizeWrites, hpn]⟩
  · have hnone2 := createStreams_resizeStream_of_fail env (freshV3 options) conn hist logger
      sink1 hne rfl
    rw [heq]
    refine ⟨?_, ?_, ?_, ?_⟩
    · intro h
      simp [Sess.fresh] at h
    · intro _ _ h3 _
      simp [Sess.fresh, hnone2] at h3
    · intro ht
      refine ⟨by simp [Sess.fresh, hnone2], ?_, by simp [Sess.fresh],
        by simp [Sess.fresh, Sess.nextCalls]⟩
      simp only [Sess.fresh, hcl]
      simp [ht]
    · intro _
      exact ⟨by simp [Sess.fresh], by simp [Sess.fresh, Sess.resizeWrites]⟩

/-- Without a TTY the pump is never started although a queue is present, also
when the schedule offers it turns; in a TTY session with a queue it has been
started once the main goroutine is past `handleResizes`. -/
theorem resize_pump_runs_iff_stream_and_queue_witness :
    samplePlainOptions.Tty = false ∧ samplePlainOptions.TerminalSizeQueue ≠ none ∧
      ((freshV3 samplePlainOptions).stream sampleEnv sampleConn [] init
        [Tid.main, Tid.main, Tid.pump, Tid.pump, Tid.main]).nextCalls = 0 ∧
      ((freshV3 sampleTtyOptions).stream sampleEnv sampleConn [] init
        [Tid.main, Tid.main]).pump ≠ none :=
  ⟨by decide, by decide,
    ((resize_pump_runs_iff_stream_and_queue sampleEnv samplePlainOptions sampleConn [] none []
      [Tid.main, Tid.main, Tid.pump, Tid.pump, Tid.main]).2.2.1 (by decide)).2.2.2,
    (resize_pump_runs_iff_stream_and_queue sampleEnv sampleTtyOptions sampleConn [] none []
      [Tid.main, Tid.main]).2.1 (by decide) (by decide) (by decide) (by decide)⟩

/-! ## The resize pump: theorems -/

theorem pump_output (env : Env) (logger : Option Logger)
    (hw : logger = none → ∀ k, env.writeOk k = true) (sink : List (Level × String))
    (sizes : List TerminalSize) (rest : List (Option TerminalSize)) (k : Nat) :
    ∃ sink1, pumpRun env (sizes.length + 1 + k) (globals logger sink)
        (PumpState.start ⟨sizes.map some ++ none :: rest⟩) =
      (globals logger sink1,
        { queue := rest, nextCalls := sizes.length + 1, encodeCalls := sizes,
          writes := writesFrom env false 0 sizes,
          encoderErr := encoderFailed env false 0 sizes,
          status := if logger = none then PumpStatus.panicked else PumpStatus.returned }) := by
  obtain ⟨sink1, h1⟩ := pumpRun_sizes env logger hw (none :: rest) sizes sink
    (PumpState.start ⟨sizes.map some ++ none :: rest⟩) rfl rfl (fun _ => rfl)
  obtain ⟨sink2, h2⟩ := pumpIter_sentinel env logger sink1
    { queue := none :: rest, nextCalls := sizes.length, encodeCalls := sizes,
      writes := writesFrom env false 0 sizes, encoderErr := encoderFailed env false 0 sizes,
      status := PumpStatus.running } rest rfl rfl
  refine ⟨sink2, ?_⟩
  rw [pumpRun_add, pumpRun_add, h1]
  simp only [PumpState.start, Nat.zero_add, List.nil_append, List.length_nil, pumpRun, h2]
  apply pumpRun_ended
  cases logger <;> simp

/-- With a logger installed, for the sizes `sizes` followed by the sentinel,
with every write succeeding, the pump writes the encodings of the sizes in
order, calls `Next()` once per size and once more, returns, and leaves the rest
of the queue untouched, however many turns it is given. -/
theorem pump_output_with_logger (env : Env) (l : Logger) (hw : ∀ k, env.writeOk k = true)
    (sink : List (Level × String)) (sizes : List TerminalSize)
    (rest : List (Option TerminalSize)) (k : Nat) :
    (pumpRun env (sizes.length + 1 + k) (globals (some l) sink)
        (PumpState.start ⟨sizes.map some ++ none :: rest⟩)).2 =
      { queue := rest, nextCalls := sizes.length + 1, encodeCalls := sizes,
        writes := sizes.map env.encode, encoderErr := false,
        status := PumpStatus.returned } := by
  obtain ⟨sink1, h⟩ := pump_output env (some l) (by simp) sink sizes rest k
  rw [h, (writesFrom_all_ok env hw sizes 0).1, (writesFrom_all_ok env hw sizes 0).2]
  simp

/-- With a logger installed, whichever writes fail, every size is pulled and
handed to the encoder, `Next()` is called once per size and once more, and the
pump ends only at the sentinel, by returning. What reaches the resize stream
are the encodings before the first failed write: the encoder keeps that error. -/
theorem pump_resilient_with_logger (env : Env) (l : Logger) (sink : List (Level × String))
    (sizes : List TerminalSize) (rest : List (Option TerminalSize)) (k : Nat) :
    (pumpRun env (sizes.length + 1 + k) (globals (some l) sink)
        (PumpState.start ⟨sizes.map some ++ none :: rest⟩)).2 =
      { queue := rest, nextCalls := sizes.length + 1, encodeCalls := sizes,
        writes := writesFrom env false 0 sizes,
        encoderErr := encoderFailed env false 0 sizes,
        status := PumpStatus.returned } := by
  obtain ⟨sink1, h⟩ := pump_output env (some l) (by simp) sink sizes rest k
  rw [h]
  simp

/-- C6, at the input where the code departs from it: no logger installed, the
sizes 80x24 and 100x40 and then the sentinel, every write succeeding. The pump
started by `handleResizes` writes the two messages in order and calls `Next()`
three times, and at the sentinel `CLog.Errorf` panics instead of the pump
returning; in a session the panic ends the process and `stream` never returns.
With a logger installed the same pump returns. -/
theorem resize_pump_sentinel_without_logger :
    sampleV3WithResize.handleResizes init =
        some (init, some (PumpState.start ⟨[some ⟨80, 24⟩, some ⟨100, 40⟩, none]⟩)) ∧
      (pumpRun sampleEnv 3 init (PumpState.start ⟨[some ⟨80, 24⟩, some ⟨100, 40⟩, none]⟩)).2 =
        { queue := [], nextCalls := 3, encodeCalls := [⟨80, 24⟩, ⟨100, 40⟩],
          writes := [[80, 24], [100, 40]], encoderErr := false,
          status := PumpStatus.panicked } ∧
      ((freshV3 sampleTtyOptions).stream sampleEnv sampleConn [] init
        ([Tid.main, Tid.main, Tid.pump, Tid.pump, Tid.pump] ++ directSchedule)).crashed =
        true ∧
      ((freshV3 sampleTtyOptions).stream sampleEnv sampleConn [] init
        ([Tid.main, Tid.main, Tid.pump, Tid.pump, Tid.pump] ++ directSchedule)).out = none ∧
      (pumpRun sampleEnv 3 (globals (some sampleLogger) [])
          (PumpState.start ⟨[some ⟨80, 24⟩, some ⟨100, 40⟩, none]⟩)).2 =
        { queue := [], nextCalls := 3, encodeCalls := [⟨80, 24⟩, ⟨100, 40⟩],
          writes := [[80, 24], [100, 40]], encoderErr := false,
          status := PumpStatus.returned } := by
  refine ⟨by decide, by decide, by decide, by decide, by decide⟩

/-- C7, at the input where the code departs from it: no logger installed, the
sizes 80x24 and 100x40 and then the sentinel, the first write failing. On that
failure the pump ends, by the panic of `CLog.Errorf`: `Next()` has been called
once, the second size is never pulled or handed to the encoder, and more turns
change nothing. With a logger installed the same pump goes on: it pulls the
second size and hands it to the encoder, which returns its kept error without
writing, and it ends at the sentinel after three `Next()` calls. -/
theorem resize_pump_failed_write_without_logger :
    (pumpRun sampleEnvFirstWriteFails 1 init
        (PumpState.start ⟨[some ⟨80, 24⟩, some ⟨100, 40⟩, none]⟩)).2 =
        { queue := [some ⟨100, 40⟩, none], nextCalls := 1, encodeCalls := [⟨80, 24⟩],
          writes := [], encoderErr := true, status := PumpStatus.panicked } ∧
      (pumpRun sampleEnvFirstWriteFails 5 init
        (PumpState.start ⟨[some ⟨80, 24⟩, some ⟨100, 40⟩, none]⟩)).2 =
        { queue := [some ⟨100, 40⟩, none], nextCalls := 1, encodeCalls := [⟨80, 24⟩],
          writes := [], encoderErr := true, status := PumpStatus.panicked } ∧
      (pumpRun sampleEnvFirstWriteFails 5 (globals (some sampleLogger) [])
        (PumpState.start ⟨[some ⟨80, 24⟩, some ⟨100, 40⟩, none]⟩)).2 =
        { queue := [], nextCalls := 3, encodeCalls := [⟨80, 24⟩, ⟨100, 40⟩],
          writes := [], encoderErr := true, status := PumpStatus.returned } := by
  refine ⟨by decide, by decide, by decide⟩

/-! ## The conditional logger: theorem -/

/-- C4, at the input where the code departs from it: with no logger installed
(`SetLogger` never called, or called with nil) the three `CLog.Errorf` calls of
the v3 handler are not no-ops, each panics on the nil embedded logger. So a
TTY session whose resize stream is refused panics, while with a logger
installed the same session returns the error of the connection. -/
theorem Errorf_without_logger_panics :
    SetLogger none init = some init ∧
      init.CLog.Errorf "Error while creating streams: %s" init = none ∧
      init.CLog.Errorf "Got empty size." init = none ∧
      init.CLog.Errorf "Unable to encode size." init = none ∧
      ((freshV3 sampleTtyOptions).stream sampleEnv sampleConnNoResize [] init
        directSchedule).out = some Outcome.panicked ∧
      (SetLogger (some sampleLogger) init).map
          (fun g => ((freshV3 sampleTtyOptions).stream sampleEnv sampleConnNoResize [] g
            directSchedule).out) =
        some (some (Outcome.returned (some "no resize"))) := by
  refine ⟨by decide, by decide, by decide, by decide, by decide, by decide⟩

/-! ## The executor: theorems -/

theorem selectStreamer_unknown (protocol : String) (options : StreamOptions) (g : Globals)
    (h0 : protocol ≠ "") (h1 : protocol ≠ StreamProtocolV1Name)
    (h2 : protocol ≠ StreamProtocolV2Name) (h3 : protocol ≠ StreamProtocolV3Name)
    (h4 : protocol ≠ StreamProtocolV4Name) :
    selectStreamer protocol options g = some (none, g) := by
  simp [selectStreamer, h0, h1, h2, h3, h4]

theorem protocol_names_distinct :
    StreamProtocolV3Name ≠ StreamProtocolV4Name ∧ StreamProtocolV2Name ≠ StreamProtocolV4Name ∧
      StreamProtocolV2Name ≠ StreamProtocolV3Name ∧ StreamProtocolV1Name ≠ StreamProtocolV4Name ∧
      StreamProtocolV1Name ≠ StreamProtocolV3Name ∧ StreamProtocolV1Name ≠ StreamProtocolV2Name ∧
      "" ≠ StreamProtocolV4Name ∧ "" ≠ StreamProtocolV3Name ∧ "" ≠ StreamProtocolV2Name ∧
      "" ≠ StreamProtocolV1Name := by
  decide

theorem selectStreamer_globals (protocol : String) (options : StreamOptions)
    (logger : Option Logger) (sink : List (Level × String)) :
    ∃ sink1 h, selectStreamer protocol options (globals logger sink) =
        some (h, globals logger sink1) ∧
      (protocol = StreamProtocolV4Name → h = some (streamProtocolHandler.v4 options)) ∧
      (protocol = StreamProtocolV3Name →
        h = some (streamProtocolHandler.v3 (freshV3 options))) ∧
      (protocol = StreamProtocolV2Name → h = some (streamProtocolHandler.v2 options)) ∧
      (protocol = StreamProtocolV1Name → h = some (streamProtocolHandler.v1 options)) ∧
      (protocol = "" → h = some (streamProtocolHandler.v1 options)) := by
  obtain ⟨sink3, hD⟩ := Debugf_globals "Initializing protocol V3" logger sink
  obtain ⟨d34, d24, d23, d14, d13, d12, d04, d03, d02, d01⟩ := protocol_names_distinct
  by_cases h4 : protocol = StreamProtocolV4Name
  · subst h4
    exact ⟨sink, some (streamProtocolHandler.v4 options),
      by simp [selectStreamer, newStreamProtocolV4], fun _ => rfl,
      fun h => absurd h.symm d34, fun h => absurd h.symm d24, fun h => absurd h.symm d14,
      fun h => absurd h.symm d04⟩
  · by_cases h3 : protocol = StreamProtocolV3Name
    · subst h3
      exact ⟨sink3, some (streamProtocolHandler.v3 (freshV3 options)),
        by simp [selectStreamer, d34, newStreamProtocolV3, hD, freshV3],
        fun h => absurd h d34, fun _ => rfl, fun h => absurd h.symm d23,
        fun h => absurd h.symm d13, fun h => absurd h.symm d03⟩
    · by_cases h2 : protocol = StreamProtocolV2Name
      · subst h2
        exact ⟨sink, some (streamProtocolHandler.v2 options),
          by simp [selectStreamer, d24, d23, newStreamProtocolV2],
          fun h => absurd h d24, fun h => absurd h d23, fun _ => rfl,
          fun h => absurd h.symm d12, fun h => absurd h.symm d02⟩
      · by_cases h0 : protocol = ""
        · subst h0
          exact ⟨sink, some (streamProtocolHandler.v1 options),
            by simp [selectStreamer, d04, d03, d02, newStreamProtocolV1],
            fun h => absurd h d04, fun h => absurd h d03, fun h => absurd h d02,
            fun _ => rfl, fun _ => rfl⟩
        · by_cases h1 : protocol = StreamProtocolV1Name
          · subst h1
            exact ⟨sink, some (streamProtocolHandler.v1 options),
              by simp [selectStreamer, d14, d13, d12, d01.symm, newStreamProtocolV1],
              fun h => absurd h d14, fun h => absurd h d13, fun h => absurd h d12,
              fun _ => rfl, fun _ => rfl⟩
          · exact ⟨sink, none, by simp [selectStreamer, h4, h3, h2, h0, h1],
              fun h => absurd h h4, fun h => absurd h h3, fun h => absurd h h2,
              fun h => absurd h h1, fun h => absurd h h0⟩

/-- C1: after a successful negotiation `Stream` selects the v4 handler for the v4
name, the v3 handler for the v3 name, the v2 handler for the v2 name and the
v1 handler for the v1 name, and for the empty identifier the v1 handler, the
one selected for the v1 name, each built from the options of the call; the
selected handler is the one whose `stream` is called on the negotiated
connection, and its outcome is the outcome of `Stream`. -/
theorem Stream_selects_negotiated_handler (x : ExecEnv) (e : streamExecutor)
    (options : StreamOptions) (logger : Option Logger) (sink : List (Level × String))
    (url : String) (conn : Conn) (protocol : String)
    (hu : e.url = some url) (hr : x.newRequest e.method url = Except.ok ())
    (hn : x.negotiate e.protocols = Except.ok (conn, protocol)) :
    (protocol = StreamProtocolV4Name →
        (e.Stream x options (globals logger sink)).streamer =
          some (streamProtocolHandler.v4 options)) ∧
      (protocol = StreamProtocolV3Name →
        (e.Stream x options (globals logger sink)).streamer =
          some (streamProtocolHandler.v3 (freshV3 options))) ∧
      (protocol = StreamProtocolV2Name →
        (e.Stream x options (globals logger sink)).streamer =
          some (streamProtocolHandler.v2 options)) ∧
      (protocol = StreamProtocolV1Name →
        (e.Stream x options (globals logger sink)).streamer =
          some (streamProtocolHandler.v1 options)) ∧
      (protocol = "" →
        (e.Stream x options (globals logger sink)).streamer =
          some (streamProtocolHandler.v1 options)) ∧
      (∀ h, (e.Stream x options (globals logger sink)).streamer = some h →
        ∃ sink1,
          (e.Stream x options (globals logger sink)).out =
              (x.stream h conn (globals logger sink1)).out ∧
            (e.Stream x options (globals logger sink)).events =
              (x.stream h conn (globals logger sink1)).calls.map ConnEvent.createStream ++
                [ConnEvent.close conn]) := by
  obtain ⟨sink1, hD1⟩ := Debugf_globals "Stream Protocol Version %d" logger sink
  obtain ⟨sink2, h, hS, c4, c3, c2, c1, c0⟩ := selectStreamer_globals protocol options logger sink1
  obtain ⟨sink3, hD2⟩ := Debugf_globals "Calling stream" logger sink2
  have hst : (e.Stream x options (globals logger sink)).streamer = h := by
    cases h <;> simp [streamExecutor.Stream, hu, hr, hn, streamBody, hD1, hS, hD2]
  refine ⟨fun hp => hst.trans (c4 hp), fun hp => hst.trans (c3 hp), fun hp => hst.trans (c2 hp),
    fun hp => hst.trans (c1 hp), fun hp => hst.trans (c0 hp), ?_⟩
  intro hd hh
  rw [hst] at hh
  subst hh
  exact ⟨sink3, by simp [streamExecutor.Stream, hu, hr, hn, streamBody, hD1, hS, hD2],
    by simp [streamExecutor.Stream, hu, hr, hn, streamBody, hD1, hS, hD2]⟩

/-- The negotiation yields the empty identifier: the v1 handler is selected. -/
theorem Stream_selects_negotiated_handler_witness :
    (sampleExecutor.Stream (sampleExecEnv "" (Outcome.returned none) []) sampleTtyOptions
      init).streamer = some (streamProtocolHandler.v1 sampleTtyOptions) :=
  (Stream_selects_negotiated_handler (sampleExecEnv "" (Outcome.returned none) [])
    sampleExecutor sampleTtyOptions none [] "https://node/exec" ⟨1⟩ "" rfl rfl rfl).2.2.2.2.1 rfl

/-- C2: when the negotiation has returned a connection, closing it is the last
thing that happens in `Stream`, however the call ends: the handler returns nil
or an error, the handler panics, or no handler could be called at all. The
outcome of the body is left as it is by the deferred close. -/
theorem Stream_closes_connection (x : ExecEnv) (e : streamExecutor) (options : StreamOptions)
    (g : Globals) (url : String) (conn : Conn) (protocol : String)
    (hu : e.url = some url) (hr : x.newRequest e.method url = Except.ok ())
    (hn : x.negotiate e.protocols = Except.ok (conn, protocol)) :
    (e.Stream x options g).events.getLast? = some (ConnEvent.close conn) ∧
      (e.Stream x options g).events.count (ConnEvent.close conn) =
        (streamBody x options conn protocol g).events.count (ConnEvent.close conn) + 1 ∧
      (e.Stream x options g).out = (streamBody x options conn protocol g).out := by
  have hev : (e.Stream x options g).events =
      (streamBody x options conn protocol g).events ++ [ConnEvent.close conn] := by
    simp [streamExecutor.Stream, hu, hr, hn]
  refine ⟨?_, ?_, ?_⟩
  · rw [hev]
    simp
  · rw [hev]
    simp
  · simp [streamExecutor.Stream, hu, hr, hn]

/-- The selected handler panics after requesting two streams: the connection
is closed all the same. -/
theorem Stream_closes_connection_witness :
    (sampleExecutor.Stream (sampleExecEnv StreamProtocolV3Name Outcome.panicked
        [sampleErrorHeaders, resizeHeaders]) sampleTtyOptions init).out = Outcome.panicked ∧
      (sampleExecutor.Stream (sampleExecEnv StreamProtocolV3Name Outcome.panicked
        [sampleErrorHeaders, resizeHeaders]) sampleTtyOptions init).events.getLast? =
        some (ConnEvent.close ⟨1⟩) :=
  ⟨by decide,
    (Stream_closes_connection (sampleExecEnv StreamProtocolV3Name Outcome.panicked
      [sampleErrorHeaders, resizeHeaders]) sampleExecutor sampleTtyOptions init
      "https://node/exec" ⟨1⟩ StreamProtocolV3Name rfl rfl rfl).1⟩

/-- C3: when the negotiated identifier is neither empty nor one of the four
protocol names, `Stream` selects no handler and ends in a panic, not in a
returned nil or error, and no sub-stream is requested: the only thing that
happens on the connection is the deferred close. This holds in every package
state. -/
theorem Stream_unknown_protocol_panics (x : ExecEnv) (e : streamExecutor)
    (options : StreamOptions) (g : Globals) (url : String) (conn : Conn) (protocol : String)
    (hu : e.url = some url) (hr : x.newRequest e.method url = Except.ok ())
    (hn : x.negotiate e.protocols = Except.ok (conn, protocol))
    (h0 : protocol ≠ "") (h1 : protocol ≠ StreamProtocolV1Name)
    (h2 : protocol ≠ StreamProtocolV2Name) (h3 : protocol ≠ StreamProtocolV3Name)
    (h4 : protocol ≠ StreamProtocolV4Name) :
    (e.Stream x options g).out = Outcome.panicked ∧
      (e.Stream x options g).streamer = none ∧
      (e.Stream x options g).events = [ConnEvent.close conn] ∧
      (∀ err, (e.Stream x options g).out ≠ Outcome.returned err) := by
  have hb : (streamBody x options conn protocol g).out = Outcome.panicked ∧
      (streamBody x options conn protocol g).streamer = none ∧
      (streamBody x options conn protocol g).events = [] := by
    unfold streamBody
    split
    · simp
    · rw [selectStreamer_unknown protocol options _ h0 h1 h2 h3 h4]
      simp only
      split <;> simp
  have ho : (e.Stream x options g).out = Outcome.panicked := by
    simp [streamExecutor.Stream, hu, hr, hn, hb.1]
  refine ⟨ho, by simp [streamExecutor.Stream, hu, hr, hn, hb.2.1],
    by simp [streamExecutor.Stream, hu, hr, hn, hb.2.2], ?_⟩
  intro err
  rw [ho]
  simp

/-- The negotiation yields the identifier of a fifth version: `Stream` panics. -/
theorem Stream_unknown_protocol_panics_witness :
    (sampleExecutor.Stream (sampleExecEnv "v5.channel.k8s.io" (Outcome.returned none) [])
      sampleTtyOptions init).out = Outcome.panicked :=
  (Stream_unknown_protocol_panics (sampleExecEnv "v5.channel.k8s.io" (Outcome.returned none) [])
    sampleExecutor sampleTtyOptions init "https://node/exec" ⟨1⟩ "v5.channel.k8s.io" rfl rfl rfl
    (by decide) (by decide) (by decide) (by decide) (by decide)).1

end remotecommand
